import Mathlib

/-!
Verification development for the slope-aspect-map repository.

The Python sources are shallowly embedded:
* floating-point slope/elevation samples become `PFloat := Option ℚ`,
  where `none` models the IEEE NaN no-data sentinel (every comparison
  against NaN is false, and arithmetic on NaN yields NaN);
* the trigonometric tail of the slope computation
  (`degrees(arctan(sqrt _))`) is embedded over `ℝ`;
* Python `int()` truncation and clamping are embedded exactly on `ℚ`/`ℤ`;
* fallible code (`np.gradient` on undersized grids, dict lookup) returns
  `Except`/`Option`.
-/

/-- Embedding of a Python float that may be NaN: `none` is NaN. -/
abbrev PFloat := Option ℚ

/-- IEEE comparison `x < c` with a non-NaN right operand: false when `x` is NaN. -/
def pyLt (x : PFloat) (c : ℚ) : Bool :=
  match x with
  | none => false
  | some a => a < c

/-- IEEE comparison `x >= c` with a non-NaN right operand: false when `x` is NaN. -/
def pyGe (x : PFloat) (c : ℚ) : Bool :=
  match x with
  | none => false
  | some a => c ≤ a

theorem pyLt_some (a c : ℚ) : pyLt (some a) c = decide (a < c) := rfl

theorem pyGe_some (a c : ℚ) : pyGe (some a) c = decide (c ≤ a) := rfl

namespace Classify

/-- Entry of the `RISK_CATEGORIES` dict in `src/classify.py` (fields `min`,
`max`, `color`). -/
structure CategoryInfo where
  min : ℚ
  max : ℚ
  color : ℕ × ℕ × ℕ × ℕ
deriving DecidableEq

/-- The `RISK_CATEGORIES` dict of `src/classify.py` lines 7-13, in insertion
order. -/
def RISK_CATEGORIES : List (String × CategoryInfo) :=
  [("low", ⟨0, 25, (0, 255, 0, 150)⟩),
   ("moderate", ⟨25, 30, (255, 255, 0, 150)⟩),
   ("high", ⟨30, 45, (255, 165, 0, 150)⟩),
   ("very_high", ⟨45, 60, (255, 0, 0, 150)⟩),
   ("extreme", ⟨60, 90, (128, 0, 128, 150)⟩)]

/-- Loop body of `classify_slope` (`src/classify.py` lines 31-41): the chained
conditional applied to one slope sample. -/
def classifySlopeValue (slope : PFloat) : String :=
  if pyLt slope 25 then "low"
  else if pyLt slope 30 then "moderate"
  else if pyLt slope 45 then "high"
  else if pyLt slope 60 then "very_high"
  else "extreme"

/-- The `classify_slope` function of `src/classify.py` on a flattened slope
array: the source loops over `flat_slopes` appending `classifySlopeValue` of
each element (reshaping afterwards for 2-D input, which does not change the
per-element categories). -/
def classify_slope (slopes : List PFloat) : List String :=
  slopes.map classifySlopeValue

/-- The `get_risk_color` function of `src/classify.py` lines 48-58:
`RISK_CATEGORIES[category]['color']`, where an unknown key raises `KeyError`
(embedded as `none`). -/
def get_risk_color (category : String) : Option (ℕ × ℕ × ℕ × ℕ) :=
  (RISK_CATEGORIES.lookup category).map CategoryInfo.color

/-- One pixel of `slope_to_rgba` (`src/classify.py` lines 61-88): the pixel
starts as zeros `(0,0,0,0)`, then each category mask is applied in order,
a later matching mask overwriting an earlier one.  A NaN slope satisfies no
mask. -/
def slope_to_rgba_pixel (s : PFloat) : ℕ × ℕ × ℕ × ℕ :=
  let rgba := (0, 0, 0, 0)
  let rgba := if pyLt s 25 then (0, 255, 0, 150) else rgba
  let rgba := if pyGe s 25 && pyLt s 30 then (255, 255, 0, 150) else rgba
  let rgba := if pyGe s 30 && pyLt s 45 then (255, 165, 0, 150) else rgba
  let rgba := if pyGe s 45 && pyLt s 60 then (255, 0, 0, 150) else rgba
  let rgba := if pyGe s 60 then (128, 0, 128, 150) else rgba
  rgba

/-- The `slope_to_rgba` function on a 2-D grid of slope samples. -/
def slope_to_rgba (slopes : List (List PFloat)) : List (List (ℕ × ℕ × ℕ × ℕ)) :=
  slopes.map (fun row => row.map slope_to_rgba_pixel)

/-- The five category labels, in threshold order. -/
def labels : List String := ["low", "moderate", "high", "very_high", "extreme"]

end Classify

namespace Classify

lemma classify_low (q : ℚ) (h : q < 25) : classifySlopeValue (some q) = "low" := by
  simp [classifySlopeValue, pyLt_some, h]

lemma classify_moderate (q : ℚ) (h1 : 25 ≤ q) (h2 : q < 30) :
    classifySlopeValue (some q) = "moderate" := by
  simp [classifySlopeValue, pyLt_some, h2, not_lt.2 h1]

lemma classify_high (q : ℚ) (h1 : 30 ≤ q) (h2 : q < 45) :
    classifySlopeValue (some q) = "high" := by
  have h25 : ¬ q < 25 := not_lt.2 (le_trans (by norm_num) h1)
  simp [classifySlopeValue, pyLt_some, h2, h25, not_lt.2 h1]

lemma classify_very_high (q : ℚ) (h1 : 45 ≤ q) (h2 : q < 60) :
    classifySlopeValue (some q) = "very_high" := by
  have h25 : ¬ q < 25 := not_lt.2 (le_trans (by norm_num) h1)
  have h30 : ¬ q < 30 := not_lt.2 (le_trans (by norm_num) h1)
  simp [classifySlopeValue, pyLt_some, h2, h25, h30, not_lt.2 h1]

lemma classify_extreme (q : ℚ) (h1 : 60 ≤ q) :
    classifySlopeValue (some q) = "extreme" := by
  have h25 : ¬ q < 25 := not_lt.2 (le_trans (by norm_num) h1)
  have h30 : ¬ q < 30 := not_lt.2 (le_trans (by norm_num) h1)
  have h45 : ¬ q < 45 := not_lt.2 (le_trans (by norm_num) h1)
  simp [classifySlopeValue, pyLt_some, h25, h30, h45, not_lt.2 h1]

lemma rgba_low (q : ℚ) (h : q < 25) : slope_to_rgba_pixel (some q) = (0, 255, 0, 150) := by
  have h25 : ¬ (25:ℚ) ≤ q := not_le.2 h
  have h30 : ¬ (30:ℚ) ≤ q := not_le.2 (h.trans (by norm_num))
  have h45 : ¬ (45:ℚ) ≤ q := not_le.2 (h.trans (by norm_num))
  have h60 : ¬ (60:ℚ) ≤ q := not_le.2 (h.trans (by norm_num))
  simp [slope_to_rgba_pixel, pyLt_some, pyGe_some, h, h25, h30, h45, h60]

lemma rgba_moderate (q : ℚ) (h1 : 25 ≤ q) (h2 : q < 30) :
    slope_to_rgba_pixel (some q) = (255, 255, 0, 150) := by
  have h30 : ¬ (30:ℚ) ≤ q := not_le.2 h2
  have h45 : ¬ (45:ℚ) ≤ q := not_le.2 (h2.trans (by norm_num))
  have h60 : ¬ (60:ℚ) ≤ q := not_le.2 (h2.trans (by norm_num))
  simp [slope_to_rgba_pixel, pyLt_some, pyGe_some, h1, h2, h30, h45, h60]

lemma rgba_high (q : ℚ) (h1 : 30 ≤ q) (h2 : q < 45) :
    slope_to_rgba_pixel (some q) = (255, 165, 0, 150) := by
  have h45 : ¬ (45:ℚ) ≤ q := not_le.2 h2
  have h60 : ¬ (60:ℚ) ≤ q := not_le.2 (h2.trans (by norm_num))
  simp [slope_to_rgba_pixel, pyLt_some, pyGe_some, h1, h2, h45, h60]

lemma rgba_very_high (q : ℚ) (h1 : 45 ≤ q) (h2 : q < 60) :
    slope_to_rgba_pixel (some q) = (255, 0, 0, 150) := by
  have h60 : ¬ (60:ℚ) ≤ q := not_le.2 h2
  simp [slope_to_rgba_pixel, pyLt_some, pyGe_some, h1, h2, h60]

lemma rgba_extreme (q : ℚ) (h1 : 60 ≤ q) :
    slope_to_rgba_pixel (some q) = (128, 0, 128, 150) := by
  simp [slope_to_rgba_pixel, pyLt_some, pyGe_some, h1]

end Classify

namespace Classify

/-- C3: for every finite slope value, classification follows the ordered
first-match threshold chain with boundary values in the higher category:
`slope < 25` is low, `25 ≤ slope < 30` moderate, `30 ≤ slope < 45` high,
`45 ≤ slope < 60` very_high, `slope ≥ 60` extreme; in particular 25.0 maps to
moderate, 30.0 to high, 45.0 to very_high and 60.0 to extreme. -/
theorem classify_slope_ordered_thresholds :
    (∀ q : ℚ, q < 25 → classifySlopeValue (some q) = "low") ∧
    (∀ q : ℚ, 25 ≤ q → q < 30 → classifySlopeValue (some q) = "moderate") ∧
    (∀ q : ℚ, 30 ≤ q → q < 45 → classifySlopeValue (some q) = "high") ∧
    (∀ q : ℚ, 45 ≤ q → q < 60 → classifySlopeValue (some q) = "very_high") ∧
    (∀ q : ℚ, 60 ≤ q → classifySlopeValue (some q) = "extreme") ∧
    classifySlopeValue (some 25) = "moderate" ∧
    classifySlopeValue (some 30) = "high" ∧
    classifySlopeValue (some 45) = "very_high" ∧
    classifySlopeValue (some 60) = "extreme" :=
  ⟨classify_low, classify_moderate, classify_high, classify_very_high,
   classify_extreme, by decide, by decide, by decide, by decide⟩

/-- Witness for C3 at concrete slope values 10 and 50. -/
theorem classify_slope_ordered_thresholds_w :
    classifySlopeValue (some 10) = "low" ∧ classifySlopeValue (some 50) = "very_high" :=
  ⟨classify_slope_ordered_thresholds.1 10 (by norm_num),
   classify_slope_ordered_thresholds.2.2.2.1 50 (by norm_num) (by norm_num)⟩

/-- C8: `get_risk_color` yields no color (a `KeyError` in the source) for any
label outside the fixed five-category set, and returns the fixed RGBA literal
for each of the five recognized labels. -/
theorem get_risk_color_unknown_fault_and_fixed_colors :
    (∀ s : String, s ∉ labels → get_risk_color s = none) ∧
    get_risk_color "low" = some (0, 255, 0, 150) ∧
    get_risk_color "moderate" = some (255, 255, 0, 150) ∧
    get_risk_color "high" = some (255, 165, 0, 150) ∧
    get_risk_color "very_high" = some (255, 0, 0, 150) ∧
    get_risk_color "extreme" = some (128, 0, 128, 150) := by
  refine ⟨?_, by decide, by decide, by decide, by decide, by decide⟩
  intro s hs
  simp [labels] at hs
  obtain ⟨h1, h2, h3, h4, h5⟩ := hs
  have b1 : (s == "low") = false := by simp [h1]
  have b2 : (s == "moderate") = false := by simp [h2]
  have b3 : (s == "high") = false := by simp [h3]
  have b4 : (s == "very_high") = false := by simp [h4]
  have b5 : (s == "extreme") = false := by simp [h5]
  simp [get_risk_color, RISK_CATEGORIES, List.lookup, b1, b2, b3, b4, b5]

/-- Witness for C8 at the concrete unknown label "no_data". -/
theorem get_risk_color_unknown_fault_and_fixed_colors_w :
    get_risk_color "no_data" = none :=
  get_risk_color_unknown_fault_and_fixed_colors.1 "no_data" (by decide)

/-- C10: classification is total over finite inputs: every negative slope is
classified low, every slope above 90 extreme, every finite slope receives one
of the five labels, and `slope_to_rgba` assigns every finite pixel exactly the
color of its label. -/
theorem classify_total_over_finite_inputs :
    (∀ q : ℚ, q < 0 → classifySlopeValue (some q) = "low") ∧
    (∀ q : ℚ, 90 < q → classifySlopeValue (some q) = "extreme") ∧
    (∀ q : ℚ, classifySlopeValue (some q) ∈ labels) ∧
    (∀ q : ℚ, get_risk_color (classifySlopeValue (some q)) =
      some (slope_to_rgba_pixel (some q))) := by
  have pick : ∀ q : ℚ, q < 25 ∨ (25 ≤ q ∧ q < 30) ∨ (30 ≤ q ∧ q < 45) ∨
      (45 ≤ q ∧ q < 60) ∨ 60 ≤ q := by
    intro q
    rcases lt_or_le q 25 with h | h
    · exact Or.inl h
    rcases lt_or_le q 30 with h' | h'
    · exact Or.inr (Or.inl ⟨h, h'⟩)
    rcases lt_or_le q 45 with h'' | h''
    · exact Or.inr (Or.inr (Or.inl ⟨h', h''⟩))
    rcases lt_or_le q 60 with h3 | h3
    · exact Or.inr (Or.inr (Or.inr (Or.inl ⟨h'', h3⟩)))
    · exact Or.inr (Or.inr (Or.inr (Or.inr h3)))
  refine ⟨?_, ?_, ?_, ?_⟩
  · intro q h
    exact classify_low q (h.trans (by norm_num))
  · intro q h
    exact classify_extreme q (le_of_lt ((by norm_num : (60:ℚ) < 90).trans h))
  · intro q
    rcases pick q with h | ⟨h1, h2⟩ | ⟨h1, h2⟩ | ⟨h1, h2⟩ | h
    · rw [classify_low q h]; decide
    · rw [classify_moderate q h1 h2]; decide
    · rw [classify_high q h1 h2]; decide
    · rw [classify_very_high q h1 h2]; decide
    · rw [classify_extreme q h]; decide
  · intro q
    rcases pick q with h | ⟨h1, h2⟩ | ⟨h1, h2⟩ | ⟨h1, h2⟩ | h
    · rw [classify_low q h, rgba_low q h]; decide
    · rw [classify_moderate q h1 h2, rgba_moderate q h1 h2]; decide
    · rw [classify_high q h1 h2, rgba_high q h1 h2]; decide
    · rw [classify_very_high q h1 h2, rgba_very_high q h1 h2]; decide
    · rw [classify_extreme q h, rgba_extreme q h]; decide

/-- Witness for C10 at concrete out-of-range slopes -5 and 95. -/
theorem classify_total_over_finite_inputs_w :
    classifySlopeValue (some (-5)) = "low" ∧ classifySlopeValue (some 95) = "extreme" :=
  ⟨classify_total_over_finite_inputs.1 (-5) (by norm_num),
   classify_total_over_finite_inputs.2.1 95 (by norm_num)⟩

/-- C1 counterexample: `classify_slope` does assign a NaN (no-data) slope one
of the five risk labels: the chained conditional falls through every `<`
comparison (all false on NaN) into the final else branch, yielding "extreme". -/
theorem classify_nan_labelled_extreme_cex :
    classify_slope [none] = ["extreme"] ∧ "extreme" ∈ labels := by decide

/-- C1 amended: `slope_to_rgba` renders a NaN (no-data) pixel fully
transparent `(0,0,0,0)` (alpha 0), never as any category color; but
`classify_slope` does not leave NaN unlabelled: it classifies NaN as
"extreme" (though never as "low"). -/
theorem nan_rgba_transparent_but_label_extreme :
    slope_to_rgba_pixel none = (0, 0, 0, 0) ∧
    slope_to_rgba [[none]] = [[(0, 0, 0, 0)]] ∧
    classifySlopeValue none = "extreme" ∧
    classifySlopeValue none ≠ "low" := by decide

end Classify

namespace Dem

/-- The `get_cell_size_meters` function of `src/dem.py` lines 21-43, with the
float trigonometry idealized over `ℝ` (`np.radians x` is `x * π / 180`). -/
noncomputable def get_cell_size_meters (resolution_degrees : ℝ) (latitude : ℝ) : ℝ :=
  let meters_per_degree_lat : ℝ := 111320
  let meters_per_degree_lon : ℝ := 111320 * Real.cos (latitude * Real.pi / 180)
  let cell_size_lat := resolution_degrees * meters_per_degree_lat
  let cell_size_lon := resolution_degrees * meters_per_degree_lon
  (cell_size_lat + cell_size_lon) / 2

/-- C7: for latitudes strictly between -90 and 90 degrees,
`get_cell_size_meters` is strictly increasing in the resolution argument,
returns exactly `r * 111320` at latitude 0, and always equals the arithmetic
mean of `r * 111320` and `r * 111320 * cos(latitude in radians)`. -/
theorem get_cell_size_meters_contract (lat : ℝ) (hlo : -90 < lat) (hhi : lat < 90) :
    (∀ r1 r2 : ℝ, 0 < r1 → r1 < r2 →
      get_cell_size_meters r1 lat < get_cell_size_meters r2 lat) ∧
    (∀ r : ℝ, get_cell_size_meters r 0 = r * 111320) ∧
    (∀ r : ℝ, get_cell_size_meters r lat =
      (r * 111320 + r * (111320 * Real.cos (lat * Real.pi / 180))) / 2) := by
  have hpi : (0:ℝ) < Real.pi / 180 := by positivity
  have hcos : 0 < Real.cos (lat * Real.pi / 180) := by
    apply Real.cos_pos_of_mem_Ioo
    constructor
    · have h := mul_lt_mul_of_pos_right hlo hpi
      calc -(Real.pi / 2) = -90 * (Real.pi / 180) := by ring
        _ < lat * (Real.pi / 180) := h
        _ = lat * Real.pi / 180 := by ring
    · have h := mul_lt_mul_of_pos_right hhi hpi
      calc lat * Real.pi / 180 = lat * (Real.pi / 180) := by ring
        _ < 90 * (Real.pi / 180) := h
        _ = Real.pi / 2 := by ring
  refine ⟨?_, ?_, fun r => rfl⟩
  · intro r1 r2 _ h12
    have hK : 0 < (111320 + 111320 * Real.cos (lat * Real.pi / 180)) / 2 := by nlinarith
    have e : ∀ r : ℝ, get_cell_size_meters r lat =
        r * ((111320 + 111320 * Real.cos (lat * Real.pi / 180)) / 2) := by
      intro r
      show (r * 111320 + r * (111320 * Real.cos (lat * Real.pi / 180))) / 2 = _
      ring
    rw [e r1, e r2]
    exact mul_lt_mul_of_pos_right h12 hK
  · intro r
    show (r * 111320 + r * (111320 * Real.cos (0 * Real.pi / 180))) / 2 = r * 111320
    have h0 : (0:ℝ) * Real.pi / 180 = 0 := by ring
    rw [h0, Real.cos_zero]
    ring

/-- Witness for C7 at latitude 0 with resolutions 1 and 2. -/
theorem get_cell_size_meters_contract_w :
    get_cell_size_meters 1 0 < get_cell_size_meters 2 0 ∧
    get_cell_size_meters 1 0 = 1 * 111320 :=
  ⟨(get_cell_size_meters_contract 0 (by norm_num) (by norm_num)).1 1 2
      (by norm_num) (by norm_num),
   (get_cell_size_meters_contract 0 (by norm_num) (by norm_num)).2.1 1⟩

end Dem

/-- NaN-propagating subtraction on embedded floats. -/
def psub : PFloat → PFloat → PFloat
  | some a, some b => some (a - b)
  | _, _ => none

/-- NaN-propagating addition on embedded floats. -/
def padd : PFloat → PFloat → PFloat
  | some a, some b => some (a + b)
  | _, _ => none

/-- NaN-propagating multiplication on embedded floats. -/
def pmul : PFloat → PFloat → PFloat
  | some a, some b => some (a * b)
  | _, _ => none

/-- NaN-propagating division by a non-NaN constant. -/
def pdivC (x : PFloat) (c : ℚ) : PFloat := x.map (fun a => a / c)

/-- Python `int()` conversion of a finite float: truncation toward zero. -/
def pyInt (q : ℚ) : ℤ := if 0 ≤ q then ⌊q⌋ else ⌈q⌉

namespace Slope

/-- A 2-D numpy-style array: dimensions plus a total indexing function
(indices outside `h × w` are never accessed by the embedded code). -/
structure Grid (α : Type) where
  h : ℕ
  w : ℕ
  data : ℕ → ℕ → α

/-- One lane of `np.gradient` with first-order edges: one-sided differences at
the two ends, central difference in the interior, each divided by the spacing.
Matches numpy for `2 ≤ n` and `i < n`. -/
def grad1 (n : ℕ) (f : ℕ → PFloat) (c : ℚ) (i : ℕ) : PFloat :=
  if i = 0 then pdivC (psub (f 1) (f 0)) c
  else if i = n - 1 then pdivC (psub (f (n - 1)) (f (n - 2))) c
  else pdivC (psub (f (i + 1)) (f (i - 1))) (2 * c)

/-- The squared gradient magnitude `dz_dx**2 + dz_dy**2` of `calculate_slope`
(`src/slope.py` lines 19-23) at cell `(i, j)`, where
`dz_dy, dz_dx = np.gradient(elevation, cell_size)` (axis 0 then axis 1). -/
def gradientMagSq (e : Grid PFloat) (c : ℚ) (i j : ℕ) : PFloat :=
  let dz_dy := grad1 e.h (fun r => e.data r j) c i
  let dz_dx := grad1 e.w (fun col => e.data i col) c j
  padd (pmul dz_dx dz_dx) (pmul dz_dy dz_dy)

/-- The trigonometric tail of `calculate_slope` (`src/slope.py` lines 23-28):
`np.degrees(np.arctan(np.sqrt m))`, NaN-propagating, idealized over `ℝ`. -/
noncomputable def slopeCell (m : PFloat) : Option ℝ :=
  m.map (fun g2 => Real.arctan (Real.sqrt (g2 : ℝ)) * 180 / Real.pi)

/-- The slope grid produced by `calculate_slope` once the gradient is
defined. -/
noncomputable def slopeGrid (e : Grid PFloat) (c : ℚ) : Grid (Option ℝ) :=
  ⟨e.h, e.w, fun i j => slopeCell (gradientMagSq e c i j)⟩

/-- Error raised by `np.gradient` when an axis has fewer than 2 samples. -/
inductive ShapeError
  | tooSmall
deriving DecidableEq

/-- The `calculate_slope` function of `src/slope.py`: `np.gradient` raises
when the elevation grid has fewer than 2 rows or 2 columns; otherwise the
slope grid is returned. -/
noncomputable def calculate_slope (e : Grid PFloat) (c : ℚ) :
    Except ShapeError (Grid (Option ℝ)) :=
  if 2 ≤ e.h ∧ 2 ≤ e.w then .ok (slopeGrid e c) else .error .tooSmall

lemma grad1_some (n : ℕ) (f : ℕ → PFloat) (c : ℚ) (i : ℕ)
    (hn : 2 ≤ n) (hi : i < n) (hf : ∀ k, k < n → f k ≠ none) :
    ∃ q : ℚ, grad1 n f c i = some q := by
  have get : ∀ k, k < n → ∃ a : ℚ, f k = some a := by
    intro k hk
    rcases hq : f k with _ | a
    · exact absurd hq (hf k hk)
    · exact ⟨a, rfl⟩
  unfold grad1
  split_ifs with h0 hl
  · obtain ⟨a, ha⟩ := get 1 (by omega)
    obtain ⟨b, hb⟩ := get 0 (by omega)
    exact ⟨(a - b) / c, by simp [psub, pdivC, ha, hb]⟩
  · obtain ⟨a, ha⟩ := get (n - 1) (by omega)
    obtain ⟨b, hb⟩ := get (n - 2) (by omega)
    exact ⟨(a - b) / c, by simp [psub, pdivC, ha, hb]⟩
  · obtain ⟨a, ha⟩ := get (i + 1) (by omega)
    obtain ⟨b, hb⟩ := get (i - 1) (by omega)
    exact ⟨(a - b) / (2 * c), by simp [psub, pdivC, ha, hb]⟩

lemma slopeCell_some_bounds (m : ℚ) :
    ∃ v : ℝ, slopeCell (some m) = some v ∧ 0 ≤ v ∧ v ≤ 90 := by
  refine ⟨Real.arctan (Real.sqrt (m : ℝ)) * 180 / Real.pi, rfl, ?_, ?_⟩
  · have h1 : 0 ≤ Real.arctan (Real.sqrt (m : ℝ)) := by
      rw [← Real.arctan_zero]
      exact Real.arctan_strictMono.monotone (Real.sqrt_nonneg _)
    exact div_nonneg (mul_nonneg h1 (by norm_num)) Real.pi_pos.le
  · have h2 : Real.arctan (Real.sqrt (m : ℝ)) ≤ Real.pi / 2 :=
      (Real.arctan_lt_pi_div_two _).le
    have e90 : Real.pi / 2 * 180 / Real.pi = 90 := by
      field_simp
      ring
    calc Real.arctan (Real.sqrt (m : ℝ)) * 180 / Real.pi
        ≤ Real.pi / 2 * 180 / Real.pi := by gcongr
      _ = 90 := e90

/-- Modelled from the spec (amended C2): the §4.2 phrase "any cell whose
gradient computation touches a no-data neighbor" along one axis — the
`np.gradient` stencil of index `i` on a lane of length `n` (one-sided at the
two ends, central in the interior) contains a no-data sample. -/
def touchesNoData1 (n : ℕ) (f : ℕ → PFloat) (i : ℕ) : Bool :=
  if i = 0 then (f 1).isNone || (f 0).isNone
  else if i = n - 1 then (f (n - 1)).isNone || (f (n - 2)).isNone
  else (f (i + 1)).isNone || (f (i - 1)).isNone

/-- Modelled from the spec (amended C2): cell `(i, j)` has a no-data sample in
the stencil of either of its two gradient lanes. -/
def touchesNoData (e : Grid PFloat) (i j : ℕ) : Bool :=
  touchesNoData1 e.h (fun r => e.data r j) i ||
  touchesNoData1 e.w (fun col => e.data i col) j

lemma grad1_isNone (n : ℕ) (f : ℕ → PFloat) (c : ℚ) (i : ℕ) :
    (grad1 n f c i).isNone = touchesNoData1 n f i := by
  unfold grad1 touchesNoData1
  split_ifs
  · cases f 1 <;> cases f 0 <;> simp [psub, pdivC]
  · cases f (n - 1) <;> cases f (n - 2) <;> simp [psub, pdivC]
  · cases f (i + 1) <;> cases f (i - 1) <;> simp [psub, pdivC]

/-- C5: `calculate_slope` fails with a shape error exactly when the elevation
grid has fewer than 2 rows or fewer than 2 columns; for grids of at least
2 by 2 it returns the slope grid instead. -/
theorem calculate_slope_shape_guard (e : Grid PFloat) (c : ℚ) :
    (e.h < 2 ∨ e.w < 2 → calculate_slope e c = .error .tooSmall) ∧
    (2 ≤ e.h → 2 ≤ e.w → calculate_slope e c = .ok (slopeGrid e c)) := by
  constructor
  · intro h
    have hn : ¬ (2 ≤ e.h ∧ 2 ≤ e.w) := by omega
    simp [calculate_slope, hn]
  · intro h1 h2
    simp [calculate_slope, h1, h2]

/-- A degenerate single-row elevation grid (1 by 3, all zero). -/
def gTooThin : Grid PFloat := ⟨1, 3, fun _ _ => some 0⟩

/-- A minimal 2 by 2 all-zero elevation grid. -/
def gSquare : Grid PFloat := ⟨2, 2, fun _ _ => some 0⟩

/-- Witness for C5 on the concrete grids `gTooThin` (1 by 3) and `gSquare`
(2 by 2). -/
theorem calculate_slope_shape_guard_w :
    calculate_slope gTooThin 1 = .error .tooSmall ∧
    calculate_slope gSquare 1 = .ok (slopeGrid gSquare 1) :=
  ⟨(calculate_slope_shape_guard gTooThin 1).1 (Or.inl (by decide)),
   (calculate_slope_shape_guard gSquare 1).2 (by decide) (by decide)⟩

/-- C6: for every NaN-free elevation grid of valid shape and every positive
cell size, `calculate_slope` succeeds, the slope grid has exactly the shape of
the elevation grid, and every cell holds a defined slope value in `[0, 90]`. -/
theorem calculate_slope_range_and_shape (e : Grid PFloat) (c : ℚ)
    (hh : 2 ≤ e.h) (hw : 2 ≤ e.w) (_hc : 0 < c)
    (hnan : ∀ i j, i < e.h → j < e.w → e.data i j ≠ none) :
    calculate_slope e c = .ok (slopeGrid e c) ∧
    (slopeGrid e c).h = e.h ∧ (slopeGrid e c).w = e.w ∧
    ∀ i j, i < e.h → j < e.w →
      ∃ v : ℝ, (slopeGrid e c).data i j = some v ∧ 0 ≤ v ∧ v ≤ 90 := by
  refine ⟨by simp [calculate_slope, hh, hw], rfl, rfl, ?_⟩
  intro i j hi hj
  obtain ⟨dy, hdy⟩ := grad1_some e.h (fun r => e.data r j) c i hh hi
    (fun k hk => hnan k j hk hj)
  obtain ⟨dx, hdx⟩ := grad1_some e.w (fun col => e.data i col) c j hw hj
    (fun k hk => hnan i k hi hk)
  have hm : gradientMagSq e c i j = some (dx * dx + dy * dy) := by
    simp [gradientMagSq, hdx, hdy, pmul, padd]
  obtain ⟨v, hv, h0, h90⟩ := slopeCell_some_bounds (dx * dx + dy * dy)
  exact ⟨v, by simpa [slopeGrid, hm] using hv, h0, h90⟩

/-- Witness for C6 on the concrete 2 by 2 zero grid with cell size 1. -/
theorem calculate_slope_range_and_shape_w :
    ∃ v : ℝ, (slopeGrid gSquare 1).data 0 0 = some v ∧ 0 ≤ v ∧ v ≤ 90 :=
  (calculate_slope_range_and_shape gSquare 1 (by decide) (by decide) (by norm_num)
    (fun _ _ _ _ => Option.some_ne_none 0)).2.2.2 0 0 (by decide) (by decide)

/-- A 3 by 3 elevation grid whose only NaN (no-data) sample is the center
cell. -/
def gCenterNaN : Grid PFloat :=
  ⟨3, 3, fun i j => if i = 1 ∧ j = 1 then none else some 0⟩

/-- C2 counterexample: a no-data elevation cell does NOT propagate to the
slope output at that same cell: on `gCenterNaN` the center elevation is NaN,
yet its central-difference stencils touch only the four finite neighbors, so
the computed slope there is the defined value 0, not NaN. -/
theorem calculate_slope_nan_center_cex :
    gCenterNaN.data 1 1 = none ∧
    (slopeGrid gCenterNaN 1).data 1 1 = some 0 ∧
    ((slopeGrid gCenterNaN 1).data 1 1).isNone = false := by
  have hm : gradientMagSq gCenterNaN 1 1 1 = some 0 := by
    norm_num [gradientMagSq, grad1, gCenterNaN, psub, pdivC, pmul, padd]
  refine ⟨rfl, ?_, ?_⟩
  · show slopeCell (gradientMagSq gCenterNaN 1 1 1) = some 0
    rw [hm]
    simp [slopeCell]
  · show (slopeCell (gradientMagSq gCenterNaN 1 1 1)).isNone = false
    rw [hm]
    simp [slopeCell]

/-- C2 amended: a slope cell is NaN (no-data) exactly when the `np.gradient`
stencil of one of its two lanes touches a no-data elevation sample; at
interior cells the stencil is the four neighbors and does not include the
cell itself, at edge cells the one-sided stencil does include it. -/
theorem calculate_slope_nan_iff_touches (e : Grid PFloat) (c : ℚ) (i j : ℕ) :
    ((slopeGrid e c).data i j).isNone = touchesNoData e i j := by
  show (slopeCell (gradientMagSq e c i j)).isNone = _
  have key : (gradientMagSq e c i j).isNone = touchesNoData e i j := by
    rw [touchesNoData, ← grad1_isNone e.h (fun r => e.data r j) c i,
      ← grad1_isNone e.w (fun col => e.data i col) c j]
    show (padd (pmul _ _) (pmul _ _)).isNone = _
    cases grad1 e.h (fun r => e.data r j) c i <;>
      cases grad1 e.w (fun col => e.data i col) c j <;>
        simp [pmul, padd]
  rw [← key]
  cases gradientMagSq e c i j <;> simp [slopeCell]

end Slope

namespace Diagnose

/-- Index computation of `get_slope_at_coord` (`diagnose_alignment.py` lines
9-28): fractional position of `(lat, lon)` inside the bounds, scaled to
pixels, truncated with `int()`, then clamped to the valid index range.
Returns `(row, col)`. -/
def get_slope_at_coord_index (height width : ℕ) (west south east north lat lon : ℚ) :
    ℤ × ℤ :=
  let x_frac := (lon - west) / (east - west)
  let y_frac := (north - lat) / (north - south)
  let col := pyInt (x_frac * width)
  let row := pyInt (y_frac * height)
  let col2 := max 0 (min ((width : ℤ) - 1) col)
  let row2 := max 0 (min ((height : ℤ) - 1) row)
  (row2, col2)

/-- The forward index-to-coordinate mapping of `diagnose_alignment.py` lines
89-92: `lon = west + (col / width) * (east - west)`,
`lat = north - (row / height) * (north - south)`; returns `(lat, lon)`. -/
def indexToCoord (height width : ℕ) (west south east north : ℚ) (row col : ℕ) :
    ℚ × ℚ :=
  (north - ((row : ℚ) / height) * (north - south),
   west + ((col : ℚ) / width) * (east - west))

/-- C4: for well-ordered bounds and any valid grid index, the diagnostic
coordinate-to-pixel probe applied to the forward index-to-coordinate mapping
returns exactly the original `(row, col)`: the two mappings are mutual
inverses (here even exactly, with no rounding slack). -/
theorem probe_inverts_forward (height width : ℕ) (west south east north : ℚ)
    (hwe : west < east) (hsn : south < north) (row col : ℕ)
    (hr : row < height) (hc : col < width) :
    get_slope_at_coord_index height width west south east north
      (indexToCoord height width west south east north row col).1
      (indexToCoord height width west south east north row col).2 =
      ((row : ℤ), (col : ℤ)) := by
  have hwpos : 0 < width := Nat.pos_of_ne_zero (by omega)
  have hhpos : 0 < height := Nat.pos_of_ne_zero (by omega)
  have hw0 : (width : ℚ) ≠ 0 := by exact_mod_cast hwpos.ne'
  have hh0 : (height : ℚ) ≠ 0 := by exact_mod_cast hhpos.ne'
  have he : east - west ≠ 0 := (sub_pos.2 hwe).ne'
  have hn : north - south ≠ 0 := (sub_pos.2 hsn).ne'
  simp only [get_slope_at_coord_index, indexToCoord]
  have ex : (west + (col : ℚ) / width * (east - west) - west) / (east - west) * width
      = (col : ℚ) := by
    field_simp
    ring
  have ey : (north - (north - (row : ℚ) / height * (north - south))) / (north - south)
      * height = (row : ℚ) := by
    field_simp
    ring
  rw [ex, ey]
  have pcol : pyInt (col : ℚ) = (col : ℤ) := by
    simp [pyInt, Int.floor_natCast]
  have prow : pyInt (row : ℚ) = (row : ℤ) := by
    simp [pyInt, Int.floor_natCast]
  rw [pcol, prow]
  have hc' : (col : ℤ) ≤ (width : ℤ) - 1 := by omega
  have hr' : (row : ℤ) ≤ (height : ℤ) - 1 := by omega
  rw [min_eq_right hc', min_eq_right hr',
    max_eq_right (Int.natCast_nonneg row), max_eq_right (Int.natCast_nonneg col)]

/-- Witness for C4 on a concrete 2 by 3 grid over the unit-square bounds at
index `(row, col) = (1, 2)`. -/
theorem probe_inverts_forward_w :
    get_slope_at_coord_index 2 3 0 0 1 1
      (indexToCoord 2 3 0 0 1 1 1 2).1
      (indexToCoord 2 3 0 0 1 1 1 2).2 = (1, 2) :=
  probe_inverts_forward 2 3 0 0 1 1 (by norm_num) (by norm_num) 1 2
    (by norm_num) (by norm_num)

end Diagnose

namespace Visualize

/-- The downsampling branch of `create_slope_map` (`src/visualize.py` lines
110-120) acting on the image dimensions: when the larger dimension exceeds
`max_dimension = 1500`, both dimensions are multiplied by
`scale = max_dimension / max(height, width)` and truncated by `int()`;
otherwise the image is left untouched. -/
def downsample_dims (height width : ℕ) : ℕ × ℕ :=
  let max_dimension : ℕ := 1500
  if max height width > max_dimension then
    let scale : ℚ := (max_dimension : ℚ) / (max height width : ℚ)
    ((pyInt ((height : ℚ) * scale)).toNat, (pyInt ((width : ℚ) * scale)).toNat)
  else (height, width)

/-- C9 counterexample: on a 3000 by 7 grid downsampling yields 1500 by 3, and
the new height/width quotient 500 differs from the original quotient 3000/7 by
more than 71 — far beyond any floating tolerance, because each dimension is
truncated to an integer separately. -/
theorem downsample_distorts_proportion_cex :
    downsample_dims 3000 7 = (1500, 3) ∧
    ¬ ((1500 : ℚ) / 3 - 3000 / 7 < 1) := by
  constructor
  · norm_num [downsample_dims, pyInt]
    exact ⟨rfl, rfl⟩
  · norm_num

/-- C9 amended: downsampling is applied exactly when `max(height, width)`
exceeds 1500; when applied, each new dimension is the `int()` truncation of
the exactly proportional value `dim * 1500 / max(height, width)` (so the
larger dimension becomes exactly 1500 and the quotient is preserved only up
to this per-dimension truncation, not within floating tolerance); no
downsampling occurs when both dimensions are at most 1500. -/
theorem downsample_dims_spec (height width : ℕ) :
    (max height width ≤ 1500 → downsample_dims height width = (height, width)) ∧
    (1500 < max height width →
      downsample_dims height width =
        ((pyInt ((height : ℚ) * (1500 / (max height width : ℚ)))).toNat,
         (pyInt ((width : ℚ) * (1500 / (max height width : ℚ)))).toNat)) ∧
    (1500 < max height width →
      max (downsample_dims height width).1 (downsample_dims height width).2 = 1500) := by
  refine ⟨?_, ?_, ?_⟩
  · intro h
    simp [downsample_dims, not_lt.2 h]
  · intro h
    simp [downsample_dims, h]
  · intro h
    have hm0 : (max height width : ℚ) ≠ 0 := by
      have : 0 < max height width := by omega
      exact_mod_cast this.ne'
    have hbig : ((max height width : ℕ) : ℚ) * (1500 / (max height width : ℚ)) = 1500 := by
      field_simp
    have hfull : (pyInt (((max height width : ℕ) : ℚ) * (1500 / (max height width : ℚ)))).toNat
        = 1500 := by
      rw [hbig]
      norm_num [pyInt]
      rfl
    have hsmall : ∀ d : ℕ, d ≤ max height width →
        (pyInt ((d : ℚ) * (1500 / (max height width : ℚ)))).toNat ≤ 1500 := by
      intro d hd
      have hscale : (0:ℚ) ≤ 1500 / (max height width : ℚ) := by positivity
      have hle : (d : ℚ) * (1500 / (max height width : ℚ)) ≤ 1500 := by
        calc (d : ℚ) * (1500 / (max height width : ℚ))
            ≤ ((max height width : ℕ) : ℚ) * (1500 / (max height width : ℚ)) := by
              apply mul_le_mul_of_nonneg_right _ hscale
              exact_mod_cast hd
          _ = 1500 := hbig
      have hnn : (0:ℚ) ≤ (d : ℚ) * (1500 / (max height width : ℚ)) := by positivity
      have : pyInt ((d : ℚ) * (1500 / (max height width : ℚ))) ≤ 1500 := by
        rw [pyInt, if_pos hnn]
        calc ⌊(d : ℚ) * (1500 / (max height width : ℚ))⌋ ≤ ⌊(1500:ℚ)⌋ :=
              Int.floor_le_floor hle
          _ = 1500 := by norm_num
      omega
    simp only [downsample_dims, if_pos h]
    push_cast
    rcases max_cases height width with ⟨hm, hge⟩ | ⟨hm, hlt⟩
    · rw [show ((max height width : ℕ) : ℚ) = (height : ℚ) by rw [hm]] at hfull
      rw [hfull]
      exact max_eq_left (hsmall width (le_max_right _ _))
    · rw [show ((max height width : ℕ) : ℚ) = (width : ℚ) by rw [hm]] at hfull
      rw [hfull]
      exact max_eq_right (hsmall height (le_max_left _ _))

/-- Witness for C9 amended: no-op on a 100 by 200 grid; larger dimension
becomes exactly 1500 on a 3000 by 1000 grid. -/
theorem downsample_dims_spec_w :
    downsample_dims 100 200 = (100, 200) ∧
    max (downsample_dims 3000 1000).1 (downsample_dims 3000 1000).2 = 1500 :=
  ⟨(downsample_dims_spec 100 200).1 (by decide),
   (downsample_dims_spec 3000 1000).2.2 (by decide)⟩

end Visualize
